import Mathlib

/-
Verification of the client-side authentication/session core of the
invoice application (frontend).

Embedded from the source:
  * src/frontend/src/utils/api.js — the Request Authenticator
    (request interceptor) and the Session Guard (response interceptor).

Modelled from the spec (spec.md §3, §4.1, §8): the Auth Session
Controller (contexts/AuthContext.js), whose implementation file is not
present in the repository snapshot — only its test suite
(contexts/__tests__/AuthContext.test.js) is. Every definition in that
part carries a doc comment starting "Modelled from the spec:".

Conventions of the embedding:
  * Durable client storage (localStorage restricted to the two keys the
    core uses, `token` and `user`) is a record of two optional entries;
    `getItem` returning null is `none`.
  * JavaScript string truthiness (`if (token)`) is `truthy`: present
    and non-empty.
  * The serialized profile stored under `user` is a `StoredUser`: a
    string that parses back to a profile (`valid u`, i.e. the image of
    JSON.stringify) or one that does not (`corrupt s`), capturing
    JSON.parse/JSON.stringify semantics without a JSON grammar.
  * Execution is single-threaded and storage writes are synchronous
    (spec §5), so each operation is one total state transition.
-/

namespace InvoiceAuth

/-- A user profile record as the client sees it (spec §3: the client
treats it as an immutable record; the fields beyond these three never
influence the session logic). -/
structure UserProfile where
  id : Nat
  username : String
  email : String
deriving DecidableEq, Repr

/-- What the durable `user` storage entry can hold: the serialization of
a profile (which parses back to it) or a corrupt string (which fails to
parse, e.g. "invalid-json"). -/
inductive StoredUser where
  | valid (u : UserProfile)
  | corrupt (s : String)
deriving DecidableEq, Repr

/-- Parsing the stored `user` entry: JSON.parse succeeds exactly on the
image of JSON.stringify. -/
def StoredUser.parse : StoredUser → Option UserProfile
  | .valid u => some u
  | .corrupt _ => none

/-- Durable client storage restricted to the two keys the auth core
uses: `token` (raw string) and `user` (serialized profile record).
`none` models an absent key (getItem returns null). -/
structure Storage where
  token : Option String
  user : Option StoredUser
deriving DecidableEq, Repr

/-- Storage with neither entry present. -/
def Storage.empty : Storage := { token := none, user := none }

/-- JavaScript truthiness of a nullable string: null and the empty
string are falsy, every other string truthy (api.js line 17 `if (token)`). -/
def truthy : Option String → Bool
  | none => false
  | some s => !s.isEmpty

/-! ## Request Authenticator — api.js request interceptor (lines 14–25)

```js
api.interceptors.request.use((config) => {
  const token = localStorage.getItem('token');
  if (token) {
    config.headers.Authorization = `Bearer ${token}`;
  }
  return config;
});
```
-/

/-- A request configuration: its headers as an association list of
(name, value) pairs. -/
structure Config where
  headers : List (String × String)
deriving DecidableEq, Repr

/-- Look a header up by name (JS property read `headers[n]`). -/
def getHeader (n : String) : List (String × String) → Option String
  | [] => none
  | p :: tl => if p.1 = n then some p.2 else getHeader n tl

/-- JS object property assignment `headers[n] = v`: any previous binding
of `n` is overwritten, every other key keeps its value. -/
def setHeader (n v : String) : List (String × String) → List (String × String)
  | [] => [(n, v)]
  | p :: tl => if p.1 = n then setHeader n v tl else p :: setHeader n v tl

/-- api.js lines 14–25: read `token` from storage; when truthy set the
`Authorization` header to `Bearer <token>`; return the config. The
interceptor only calls getItem, so storage is passed through unchanged —
the returned pair makes that explicit. -/
def requestInterceptor (st : Storage) (config : Config) : Storage × Config :=
  match st.token with
  | some t =>
      if t.isEmpty then (st, config)
      else (st, { headers := setHeader "Authorization" ("Bearer " ++ t) config.headers })
  | none => (st, config)

/-! ## Session Guard — api.js response interceptor (lines 28–38)

```js
api.interceptors.response.use(
  (response) => response,
  (error) => {
    if (error.response?.status === 401) {
      localStorage.removeItem('token');
      localStorage.removeItem('user');
      window.location.href = '/login';
    }
    return Promise.reject(error);
  }
);
```
-/

/-- The structured server response attached to an axios error, when the
server answered at all. `status` is optional: the test suite exercises
an error whose response object lacks a status field. `errMsg` models
`response.data.error`. -/
structure ServerResponse where
  status : Option Nat
  errMsg : Option String
deriving DecidableEq, Repr

/-- An axios rejection: `response` is absent on a pure network failure. -/
structure ErrorObj where
  response : Option ServerResponse
deriving DecidableEq, Repr

/-- api.js line 31 `error.response?.status === 401`: optional chaining
yields undefined (never 401) when the response or its status is absent. -/
def is401 (e : ErrorObj) : Bool :=
  match e.response with
  | some r => r.status == some 401
  | none => false

/-- The browser-visible state the response interceptor touches: durable
storage and `window.location.href`. -/
structure BrowserState where
  storage : Storage
  location : String
deriving DecidableEq, Repr

/-- api.js lines 30–37: on a 401 response remove both storage entries
and navigate to `/login`; otherwise leave the state alone; in every case
re-reject the original error (the second component). -/
def responseErrorHandler (e : ErrorObj) (b : BrowserState) : BrowserState × ErrorObj :=
  if is401 e then
    ({ storage := { token := none, user := none }, location := "/login" }, e)
  else
    (b, e)

/-! ## Auth Session Controller — modelled from the spec

The controller's implementation file, contexts/AuthContext.js, is not in
the repository snapshot; only its test suite is. The definitions below
are modelled from spec.md §3 (Session data model), §4.1 (contract) and
§8, with "containing a token" read as a truthy (present, non-empty)
token, the convention spec §4.1 fixes for `isAuthenticated` and the one
the in-source interceptor uses (api.js line 17).
-/

/-- Modelled from the spec: the in-memory Session of §3 —
`{ token: opaque string | absent, user: profile | absent, loading }`. -/
structure Session where
  token : Option String
  user : Option UserProfile
  loading : Bool
deriving DecidableEq, Repr

/-- Modelled from the spec: the Session at application start, before
restoration from durable storage (§3 lifecycle: created empty; §4.1:
`loading` is true during initial restoration). -/
def Session.initial : Session := { token := none, user := none, loading := true }

/-- Modelled from the spec (§4.1): `isAuthenticated` is true iff the
session token is a non-empty string. -/
def isAuthenticated (s : Session) : Bool :=
  match s.token with
  | some t => !t.isEmpty
  | none => false

/-- Modelled from the spec (§4.1 `initialize()`): read `token` and the
profile from durable storage once; a profile that does not parse is
treated as absent and its storage entry cleared; `loading` becomes
false; no network call. Returns the resolved session and the (possibly
cleaned) storage. -/
def initSession (st : Storage) : Session × Storage :=
  match st.user with
  | some su =>
      match su.parse with
      | some u => ({ token := st.token, user := some u, loading := false }, st)
      | none => ({ token := st.token, user := none, loading := false }, { st with user := none })
  | none => ({ token := st.token, user := none, loading := false }, st)

/-- The duck-typed success payload of the token issuer (§6, §9): either
field may be missing. -/
structure AuthData where
  access_token : Option String
  user : Option UserProfile
deriving DecidableEq, Repr

/-- The outcome of a login/register network call: a resolved success
payload, or a rejection carrying the axios error. -/
inductive ApiOutcome where
  | ok (d : AuthData)
  | err (e : ErrorObj)
deriving DecidableEq, Repr

/-- The structured result the controller hands the UI (§4.1 failure
semantics: the controller never throws for expected failures, it
returns a structured failure carrying a displayable message). -/
inductive AuthResult where
  | success
  | failure (msg : String)
deriving DecidableEq, Repr

/-- Modelled from the spec (§4.1, §8 example scenario): the message of a
structured failure — the server's `error` field when the rejection
carries one, otherwise the generic fallback. -/
def errMessage (e : ErrorObj) (fallback : String) : String :=
  match e.response with
  | some r =>
      match r.errMsg with
      | some m => m
      | none => fallback
  | none => fallback

/-- Modelled from the spec (§4.1 `login` success contract): with a
truthy token and a user object, write both to durable storage and set
both session fields in the same transition (atomically — execution is
single-threaded and storage writes synchronous, §5); with a truthy
token but no user object, persist and set the token alone (the
asymmetric case §4.1/§9); with no truthy token, change nothing. -/
def handleAuthSuccess (d : AuthData) (sess : Session) (st : Storage) : Session × Storage :=
  match d.access_token with
  | some t =>
      if t.isEmpty then (sess, st)
      else
        match d.user with
        | some u =>
            ({ sess with token := some t, user := some u },
             { token := some t, user := some (StoredUser.valid u) })
        | none =>
            ({ sess with token := some t }, { st with token := some t })
  | none => (sess, st)

/-- Modelled from the spec (§4.1 `login(credentials)`): the state
transition for the outcome of the token-issuer call. On success apply
the success contract; on rejection leave session and storage untouched
and return a structured failure (the controller itself never throws). -/
def login (o : ApiOutcome) (sess : Session) (st : Storage) : Session × Storage × AuthResult :=
  match o with
  | .ok d =>
      let p := handleAuthSuccess d sess st
      (p.1, p.2, .success)
  | .err e => (sess, st, .failure (errMessage e "Login failed"))

/-- Modelled from the spec (§4.1 `register(payload)`: identical contract
to `login`). -/
def register (o : ApiOutcome) (sess : Session) (st : Storage) : Session × Storage × AuthResult :=
  match o with
  | .ok d =>
      let p := handleAuthSuccess d sess st
      (p.1, p.2, .success)
  | .err e => (sess, st, .failure (errMessage e "Registration failed"))

/-- Modelled from the spec (§4.1 `logout()`): clear the in-memory
Session and remove both durable entries, synchronously, with no network
call (the transition takes no network outcome). -/
def logout (sess : Session) (_st : Storage) : Session × Storage :=
  ({ token := none, user := none, loading := sess.loading }, Storage.empty)

/-- Modelled from the spec (§3 lifecycle, §4.3): the Session Guard's
effect on the session world — on an observed 401-equivalent failure,
clear session state and durable storage (the redirect to `/login`
abandons the in-memory session); any other error leaves both alone. -/
def guardInvalidate (e : ErrorObj) (sess : Session) (st : Storage) : Session × Storage :=
  if is401 e then
    ({ token := none, user := none, loading := sess.loading }, Storage.empty)
  else
    (sess, st)

/-! ## The session lifecycle as a state machine (spec §3 lifecycle, §4.4)

States reachable from application start (empty session, empty storage)
through the lifecycle operations: restore from storage, login/register
with any network outcome, logout, and Session Guard invalidation.
-/

/-- The client-side state the lifecycle operations act on: the in-memory
session and durable storage. -/
structure AppState where
  sess : Session
  st : Storage
deriving DecidableEq, Repr

/-- Application start: empty session (loading), empty storage. -/
def AppState.start : AppState := ⟨Session.initial, Storage.empty⟩

/-- One lifecycle transition (spec §3): restoration, a login or register
call with an arbitrary outcome, logout, or a Session Guard observation
of an arbitrary error. -/
inductive Step : AppState → AppState → Prop where
  | restore (a : AppState) :
      Step a ⟨(initSession a.st).1, (initSession a.st).2⟩
  | loginCall (o : ApiOutcome) (a : AppState) :
      Step a ⟨(login o a.sess a.st).1, (login o a.sess a.st).2.1⟩
  | registerCall (o : ApiOutcome) (a : AppState) :
      Step a ⟨(register o a.sess a.st).1, (register o a.sess a.st).2.1⟩
  | logoutCall (a : AppState) :
      Step a ⟨(logout a.sess a.st).1, (logout a.sess a.st).2⟩
  | guardCall (e : ErrorObj) (a : AppState) :
      Step a ⟨(guardInvalidate e a.sess a.st).1, (guardInvalidate e a.sess a.st).2⟩

/-- States reachable from application start by lifecycle transitions. -/
inductive Reachable : AppState → Prop where
  | start : Reachable AppState.start
  | step {a b : AppState} : Reachable a → Step a b → Reachable b

/-- The inductive invariant of the lifecycle: a present in-memory user
forces a truthy in-memory token, and a valid stored profile forces a
truthy stored token. -/
def Inv (a : AppState) : Prop :=
  (a.sess.user.isSome = true → truthy a.sess.token = true) ∧
  (∀ u, a.st.user = some (StoredUser.valid u) → truthy a.st.token = true)

lemma inv_start : Inv AppState.start := by
  constructor
  · intro h; simp [AppState.start, Session.initial] at h
  · intro u h; simp [AppState.start, Storage.empty] at h

lemma inv_handleAuthSuccess (d : AuthData) (sess : Session) (st : Storage)
    (hs : sess.user.isSome = true → truthy sess.token = true)
    (hst : ∀ u, st.user = some (StoredUser.valid u) → truthy st.token = true) :
    ((handleAuthSuccess d sess st).1.user.isSome = true →
      truthy (handleAuthSuccess d sess st).1.token = true) ∧
    (∀ u, (handleAuthSuccess d sess st).2.user = some (StoredUser.valid u) →
      truthy (handleAuthSuccess d sess st).2.token = true) := by
  unfold handleAuthSuccess
  cases hd : d.access_token with
  | none => exact ⟨hs, hst⟩
  | some t =>
      by_cases he : t.isEmpty
      · simp [he]; exact ⟨hs, hst⟩
      · cases hu : d.user with
        | some u =>
            simp [he, hu, truthy]
        | none =>
            simp [he, hu, truthy]

lemma inv_initSession (st : Storage)
    (hst : ∀ u, st.user = some (StoredUser.valid u) → truthy st.token = true) :
    ((initSession st).1.user.isSome = true → truthy (initSession st).1.token = true) ∧
    (∀ u, (initSession st).2.user = some (StoredUser.valid u) →
      truthy (initSession st).2.token = true) := by
  cases hu : st.user with
  | none =>
      refine ⟨fun h => ?_, fun u h => ?_⟩
      · simp [initSession, hu] at h
      · simp [initSession, hu] at h
  | some su =>
      cases su with
      | valid u =>
          refine ⟨fun _ => ?_, fun v h => ?_⟩
          · simpa [initSession, hu, StoredUser.parse] using hst u hu
          · simpa [initSession, hu, StoredUser.parse] using hst u hu
      | corrupt s =>
          refine ⟨fun h => ?_, fun v h => ?_⟩
          · simp [initSession, hu, StoredUser.parse] at h
          · simp [initSession, hu, StoredUser.parse] at h

lemma inv_step {a b : AppState} (hi : Inv a) (hstep : Step a b) : Inv b := by
  obtain ⟨hs, hst⟩ := hi
  cases hstep with
  | restore a =>
      exact inv_initSession a.st hst
  | loginCall o a =>
      cases o with
      | ok d => exact inv_handleAuthSuccess d a.sess a.st hs hst
      | err e => exact ⟨hs, hst⟩
  | registerCall o a =>
      cases o with
      | ok d => exact inv_handleAuthSuccess d a.sess a.st hs hst
      | err e => exact ⟨hs, hst⟩
  | logoutCall a =>
      refine ⟨fun h => ?_, fun u h => ?_⟩
      · simp [logout] at h
      · simp [logout, Storage.empty] at h
  | guardCall e a =>
      by_cases h4 : is401 e
      · refine ⟨fun h => ?_, fun u h => ?_⟩
        · simp [guardInvalidate, h4] at h
        · simp [guardInvalidate, h4, Storage.empty] at h
      · simpa [guardInvalidate, h4] using ⟨hs, hst⟩

lemma reachable_inv {a : AppState} (h : Reachable a) : Inv a := by
  induction h with
  | start => exact inv_start
  | step _ hstep ih => exact inv_step ih hstep

/-! ## Header-assignment lemmas -/

lemma getHeader_setHeader_self (n v : String) (hs : List (String × String)) :
    getHeader n (setHeader n v hs) = some v := by
  induction hs with
  | nil => simp [getHeader, setHeader]
  | cons a tl ih =>
      by_cases h : a.1 = n
      · simp [setHeader, h, ih]
      · simp [setHeader, getHeader, h, ih]

lemma getHeader_setHeader_other (m n v : String) (hm : m ≠ n)
    (hs : List (String × String)) :
    getHeader m (setHeader n v hs) = getHeader m hs := by
  induction hs with
  | nil => simp [getHeader, setHeader, Ne.symm hm]
  | cons a tl ih =>
      by_cases h : a.1 = n
      · have hma : a.1 ≠ m := by rw [h]; exact Ne.symm hm
        simp [setHeader, getHeader, h, hma, Ne.symm hm, ih]
      · by_cases h2 : a.1 = m
        · simp [setHeader, getHeader, h, h2, hm]
        · simp [setHeader, getHeader, h, h2, ih]

/-! ## Claims -/

/-- C4: for every outgoing request, the Request Authenticator reads the
token from durable storage; a present non-empty token yields an
`Authorization` header equal to `Bearer <token>` while every other
header keeps its value; an absent or empty token leaves the config
untouched; the interceptor never writes to storage. -/
theorem c4_request_authenticator (st : Storage) (c : Config) :
    (requestInterceptor st c).1 = st ∧
    (∀ t, st.token = some t → t ≠ "" →
      getHeader "Authorization" (requestInterceptor st c).2.headers =
        some ("Bearer " ++ t) ∧
      (∀ n, n ≠ "Authorization" →
        getHeader n (requestInterceptor st c).2.headers = getHeader n c.headers)) ∧
    (truthy st.token = false → (requestInterceptor st c).2 = c) := by
  refine ⟨?_, ?_, ?_⟩
  · unfold requestInterceptor
    cases st.token with
    | none => rfl
    | some t => by_cases h : t.isEmpty <;> simp [h]
  · intro t ht hne
    have he : t.isEmpty = false := by
      rw [Bool.eq_false_iff]
      intro hh
      exact hne ((String.isEmpty_iff t).mp hh)
    constructor
    · simp [requestInterceptor, ht, he, getHeader_setHeader_self]
    · intro n hn
      simp only [requestInterceptor, ht, he, Bool.false_eq_true, if_false]
      exact getHeader_setHeader_other n "Authorization" ("Bearer " ++ t) hn c.headers
  · intro htr
    unfold requestInterceptor
    cases hst : st.token with
    | none => rfl
    | some t =>
        rw [hst] at htr
        have hemp : t.isEmpty = true := by simpa [truthy] using htr
        simp [hemp]

/-- C4 witness: a stored token "mock-jwt-token" makes the interceptor
attach `Bearer mock-jwt-token` on an empty header list. -/
theorem c4_request_authenticator_witness :
    getHeader "Authorization"
        (requestInterceptor ⟨some "mock-jwt-token", none⟩ ⟨[]⟩).2.headers =
      some ("Bearer " ++ "mock-jwt-token") :=
  ((c4_request_authenticator ⟨some "mock-jwt-token", none⟩ ⟨[]⟩).2.1
    "mock-jwt-token" rfl (by decide)).1

/-- C1: for every response error handled by the Session Guard, a
structured server response with status 401 causes both durable entries
to be removed and navigation to `/login`; any other status, and errors
with no structured response, leave browser state untouched; in every
case the original error is re-rejected unchanged. -/
theorem c1_session_guard (e : ErrorObj) (b : BrowserState) :
    (responseErrorHandler e b).2 = e ∧
    (∀ r, e.response = some r → r.status = some 401 →
      (responseErrorHandler e b).1.storage.token = none ∧
      (responseErrorHandler e b).1.storage.user = none ∧
      (responseErrorHandler e b).1.location = "/login") ∧
    (∀ r, e.response = some r → r.status ≠ some 401 →
      (responseErrorHandler e b).1 = b) ∧
    (e.response = none → (responseErrorHandler e b).1 = b) := by
  refine ⟨?_, ?_, ?_, ?_⟩
  · unfold responseErrorHandler
    by_cases h : is401 e <;> simp [h]
  · intro r hr h401
    have h : is401 e = true := by simp [is401, hr, h401]
    simp [responseErrorHandler, h]
  · intro r hr hne
    have h : is401 e = false := by
      simp only [is401, hr, beq_eq_false_iff_ne, ne_eq]
      exact hne
    simp [responseErrorHandler, h]
  · intro hr
    have h : is401 e = false := by simp [is401, hr]
    simp [responseErrorHandler, h]

/-- C1 witness: a 401 error with data clears both entries and redirects;
the instantiation discharges both hypotheses of the 401 branch. -/
theorem c1_session_guard_witness :
    (responseErrorHandler ⟨some ⟨some 401, some "Unauthorized"⟩⟩
        ⟨⟨some "tok", some (StoredUser.valid ⟨1, "testuser", "t@e.com"⟩)⟩, ""⟩).1.storage.token
        = none ∧
    (responseErrorHandler ⟨some ⟨some 401, some "Unauthorized"⟩⟩
        ⟨⟨some "tok", some (StoredUser.valid ⟨1, "testuser", "t@e.com"⟩)⟩, ""⟩).1.storage.user
        = none ∧
    (responseErrorHandler ⟨some ⟨some 401, some "Unauthorized"⟩⟩
        ⟨⟨some "tok", some (StoredUser.valid ⟨1, "testuser", "t@e.com"⟩)⟩, ""⟩).1.location
        = "/login" :=
  (c1_session_guard ⟨some ⟨some 401, some "Unauthorized"⟩⟩
      ⟨⟨some "tok", some (StoredUser.valid ⟨1, "testuser", "t@e.com"⟩)⟩, ""⟩).2.1
    ⟨some 401, some "Unauthorized"⟩ rfl rfl

/-- C2: a login or register success response carrying a (non-empty)
access token T and a user object U leaves durable storage holding
exactly token=T and user=serialize(U) and the in-memory Session equal
to {token T, user U}; the whole update is one transition of the model
(single-threaded synchronous writes, spec §5), so no state with one
field set and not the other is ever observable. -/
theorem c2_login_success_atomic (t : String) (u : UserProfile)
    (sess : Session) ( st : Storage) (ht : t ≠ "") :
    login (.ok ⟨some t, some u⟩) sess st =
      ({ token := some t, user := some u, loading := sess.loading },
       { token := some t, user := some (StoredUser.valid u) }, .success) ∧
    register (.ok ⟨some t, some u⟩) sess st =
      ({ token := some t, user := some u, loading := sess.loading },
       { token := some t, user := some (StoredUser.valid u) }, .success) := by
  have he : t.isEmpty = false := by
    rw [Bool.eq_false_iff]
    intro hh
    exact ht ((String.isEmpty_iff t).mp hh)
  constructor <;> simp [login, register, handleAuthSuccess, he]

/-- C2 witness: the registration scenario of spec §8 — token "tok1" and
user {1, newuser} end up in both storage and session. -/
theorem c2_login_success_atomic_witness :
    login (.ok ⟨some "tok1", some ⟨1, "newuser", "new@example.com"⟩⟩)
        Session.initial Storage.empty =
      ({ token := some "tok1", user := some ⟨1, "newuser", "new@example.com"⟩,
         loading := true },
       { token := some "tok1",
         user := some (StoredUser.valid ⟨1, "newuser", "new@example.com"⟩) },
       .success) :=
  (c2_login_success_atomic "tok1" ⟨1, "newuser", "new@example.com"⟩
    Session.initial Storage.empty (by decide)).1

/-- C3: a rejected login or register call leaves both the session and
durable storage exactly as they were and produces a structured failure
value (the transition is a total function — the controller never
throws), whose message surfaces the server error when there is one. -/
theorem c3_rejection_no_writes (e : ErrorObj) (sess : Session) (st : Storage) :
    login (.err e) sess st = (sess, st, .failure (errMessage e "Login failed")) ∧
    register (.err e) sess st =
      (sess, st, .failure (errMessage e "Registration failed")) := by
  constructor <;> rfl

/-- C5: `isAuthenticated` holds exactly when the session token is a
present, non-empty string — false for an absent token and false for the
empty string. -/
theorem c5_isAuthenticated_iff_nonempty_token (s : Session) :
    isAuthenticated s = true ↔ ∃ t, s.token = some t ∧ t ≠ "" := by
  unfold isAuthenticated
  cases hs : s.token with
  | none => simp
  | some t =>
      simp only [Bool.not_eq_true', Option.some.injEq, exists_eq_left, exists_eq_left',
        ne_eq, Bool.eq_false_iff]
      exact not_congr (String.isEmpty_iff t)

/-- C6: logout clears the in-memory session (token and user absent,
`isAuthenticated` false) and removes both durable entries, from any
prior state; the transition consumes no network outcome, so no network
call is needed for it to succeed. -/
theorem c6_logout_clears (sess : Session) (st : Storage) :
    (logout sess st).1.token = none ∧
    (logout sess st).1.user = none ∧
    isAuthenticated (logout sess st).1 = false ∧
    (logout sess st).2.token = none ∧
    (logout sess st).2.user = none :=
  ⟨rfl, rfl, rfl, rfl, rfl⟩

/-- C7: a success response with no access token changes neither session
nor storage (whatever the user field holds); a success response with a
non-empty token but no user object persists and sets the token alone,
leaving the user absent — the asymmetric case. Both for login and for
register. -/
theorem c7_asymmetric_success (sess : Session) (st : Storage) :
    (∀ u, login (.ok ⟨none, u⟩) sess st = (sess, st, .success) ∧
          register (.ok ⟨none, u⟩) sess st = (sess, st, .success)) ∧
    (∀ t, t ≠ "" → sess.user = none →
      login (.ok ⟨some t, none⟩) sess st =
        ({ token := some t, user := none, loading := sess.loading },
         { st with token := some t }, .success) ∧
      register (.ok ⟨some t, none⟩) sess st =
        ({ token := some t, user := none, loading := sess.loading },
         { st with token := some t }, .success)) := by
  constructor
  · intro u
    constructor <;> rfl
  · intro t ht hu
    have he : t.isEmpty = false := by
      rw [Bool.eq_false_iff]
      intro hh
      exact ht ((String.isEmpty_iff t).mp hh)
    constructor <;> simp [login, register, handleAuthSuccess, he, hu]

/-- C7 witness: the token-only response of the test suite, from the
unauthenticated session — token "mock-token" is set and persisted alone,
user stays absent. -/
theorem c7_asymmetric_success_witness :
    login (.ok ⟨some "mock-token", none⟩) ⟨none, none, false⟩ Storage.empty =
      (⟨some "mock-token", none, false⟩, ⟨some "mock-token", none⟩, .success) :=
  ((c7_asymmetric_success ⟨none, none, false⟩ Storage.empty).2
    "mock-token" (by decide) rfl).1

/-- C8: starting from storage with a non-empty token and an unparseable
`user` entry, restoration does not fail: it yields a session with the
token and no user, removes the corrupted entry from storage, and
`isAuthenticated` is true on the token alone. -/
theorem c8_corrupt_profile (t s : String) (ht : t ≠ "") :
    initSession ⟨some t, some (StoredUser.corrupt s)⟩ =
      (⟨some t, none, false⟩, ⟨some t, none⟩) ∧
    isAuthenticated (initSession ⟨some t, some (StoredUser.corrupt s)⟩).1 = true := by
  have he : t.isEmpty = false := by
    rw [Bool.eq_false_iff]
    intro hh
    exact ht ((String.isEmpty_iff t).mp hh)
  constructor
  · rfl
  · simp [initSession, StoredUser.parse, isAuthenticated, he]

/-- C8 witness: the test scenario — token "mock-jwt-token" with stored
user "invalid-json". -/
theorem c8_corrupt_profile_witness :
    initSession ⟨some "mock-jwt-token", some (StoredUser.corrupt "invalid-json")⟩ =
      (⟨some "mock-jwt-token", none, false⟩, ⟨some "mock-jwt-token", none⟩) :=
  (c8_corrupt_profile "mock-jwt-token" "invalid-json" (by decide)).1

/-- The state produced by a login success carrying a token but no user
object, taken from application start: the asymmetric case of spec
§4.1/§9. -/
def asymmetricState : AppState :=
  ⟨⟨some "tok", none, true⟩, ⟨some "tok", none⟩⟩

/-- C9 counterexample: a state reachable through the lifecycle
operations (one login whose success response has a token and no user)
in which the token is present and non-empty yet the user is absent, so
"user present iff token present and non-empty" fails. -/
theorem c9_counterexample :
    Reachable asymmetricState ∧
    ¬(asymmetricState.sess.user.isSome = true ↔
        truthy asymmetricState.sess.token = true) := by
  constructor
  · have hstep := Step.loginCall (.ok ⟨some "tok", none⟩) AppState.start
    have heq :
        (⟨(login (.ok ⟨some "tok", none⟩) AppState.start.sess AppState.start.st).1,
          (login (.ok ⟨some "tok", none⟩) AppState.start.sess AppState.start.st).2.1⟩ :
          AppState) = asymmetricState := by decide
    exact heq ▸ Reachable.step Reachable.start hstep
  · decide

/-- C9 amended: in every state reachable through the lifecycle
operations, a present user forces a present non-empty token (the
converse direction fails, by the asymmetric counterexample). -/
theorem c9_user_implies_token (a : AppState) (h : Reachable a)
    (u : UserProfile) (hu : a.sess.user = some u) :
    ∃ t, a.sess.token = some t ∧ t ≠ "" := by
  have hi := (reachable_inv h).1 (by simp [hu])
  cases ht : a.sess.token with
  | none => rw [ht] at hi; simp [truthy] at hi
  | some t =>
      rw [ht] at hi
      refine ⟨t, rfl, fun hemp => ?_⟩
      subst hemp
      exact absurd hi (by decide)

/-- A fully authenticated state: the successful-login scenario of the
test suite, reached from application start by one login. -/
def authenticatedState : AppState :=
  ⟨⟨some "tok", some ⟨1, "testuser", "test@example.com"⟩, true⟩,
   ⟨some "tok", some (StoredUser.valid ⟨1, "testuser", "test@example.com"⟩)⟩⟩

/-- C9 witness: the amended invariant applied to the concrete reachable
authenticated state. -/
theorem c9_user_implies_token_witness :
    ∃ t, authenticatedState.sess.token = some t ∧ t ≠ "" :=
  c9_user_implies_token authenticatedState
    (by
      have hstep :=
        Step.loginCall (.ok ⟨some "tok", some ⟨1, "testuser", "test@example.com"⟩⟩)
          AppState.start
      have heq :
          (⟨(login (.ok ⟨some "tok", some ⟨1, "testuser", "test@example.com"⟩⟩)
                AppState.start.sess AppState.start.st).1,
            (login (.ok ⟨some "tok", some ⟨1, "testuser", "test@example.com"⟩⟩)
                AppState.start.sess AppState.start.st).2.1⟩ : AppState) =
            authenticatedState := by decide
      exact heq ▸ Reachable.step Reachable.start hstep)
    ⟨1, "testuser", "test@example.com"⟩ rfl

end InvoiceAuth
